import Mathlib

/-!
Verification development for the x-node monitoring pipeline.

The definitions below are a shallow embedding of the data-collection and
proxy code of the repository:
  * `fetchNodeStats`, `computeAggregate`, `collectNetworkData`,
    `collectAllNetworks`, `fetchPods` embed `proxy-server/lib/dataCollector.js`;
  * `postRpcProxy`, `makeHttpRequestModel`, `makeFetchRequestModel` embed
    `app/api/prpc/route.ts` (the variant whose plain-HTTP path uses a 5s
    timeout and whose handler returns 200 with an `error` body field);
  * `fetchNodeDataAndUpdate`, `classifyRegistryFetch`, `sortPodsDesc` embed
    the client-side nodes context (`NodesProvider`);
  * `getNodeHistory` embeds the MongoDB store layer.

JavaScript numbers are modelled by `JsNum`: exact rationals extended with
the two infinities and NaN, with JS-style arithmetic on the non-finite
values.  JS `null`/`undefined` fields are modelled with `Option`, and JS
truthiness tests (`x || y`, `if (x)`) are modelled explicitly.
-/

/-- JavaScript number value: a finite rational, an infinity, or NaN. -/
inductive JsNum where
  | num : ℚ → JsNum
  | posInf : JsNum
  | negInf : JsNum
  | nan : JsNum
deriving DecidableEq

/-- JS addition extended to infinities and NaN. -/
def jsAdd : JsNum → JsNum → JsNum
  | .nan, _ => .nan
  | _, .nan => .nan
  | .posInf, .negInf => .nan
  | .negInf, .posInf => .nan
  | .posInf, _ => .posInf
  | _, .posInf => .posInf
  | .negInf, _ => .negInf
  | _, .negInf => .negInf
  | .num a, .num b => .num (a + b)

/-- JS multiplication extended to infinities and NaN. -/
def jsMul : JsNum → JsNum → JsNum
  | .nan, _ => .nan
  | _, .nan => .nan
  | .num a, .num b => .num (a * b)
  | .num a, .posInf => if 0 < a then .posInf else if a < 0 then .negInf else .nan
  | .num a, .negInf => if 0 < a then .negInf else if a < 0 then .posInf else .nan
  | .posInf, .num b => if 0 < b then .posInf else if b < 0 then .negInf else .nan
  | .negInf, .num b => if 0 < b then .negInf else if b < 0 then .posInf else .nan
  | .posInf, .posInf => .posInf
  | .posInf, .negInf => .negInf
  | .negInf, .posInf => .negInf
  | .negInf, .negInf => .posInf

/-- JS division extended to infinities and NaN; division of a nonzero
finite number by zero yields an infinity, `0 / 0` yields NaN. -/
def jsDiv : JsNum → JsNum → JsNum
  | .nan, _ => .nan
  | _, .nan => .nan
  | .num a, .num b =>
      if b = 0 then (if 0 < a then .posInf else if a < 0 then .negInf else .nan)
      else .num (a / b)
  | .num _, .posInf => .num 0
  | .num _, .negInf => .num 0
  | .posInf, .num b => if b < 0 then .negInf else .posInf
  | .negInf, .num b => if b < 0 then .posInf else .negInf
  | .posInf, _ => .nan
  | .negInf, _ => .nan

/-- JS truthiness of a number: `0` and `NaN` are falsy. -/
def jsTruthy : JsNum → Bool
  | .num q => if q = 0 then false else true
  | .nan => false
  | _ => true

/-- JS `x || null` on a possibly-absent number. -/
def jsOrNull (x : Option JsNum) : Option JsNum :=
  match x with
  | none => none
  | some v => if jsTruthy v then some v else none

/-- JS `x || 0` on a possibly-absent number. -/
def jsOrZero (x : Option JsNum) : JsNum :=
  match x with
  | none => .num 0
  | some v => if jsTruthy v then v else .num 0

/-- JS `x || d` on a possibly-absent number with default `d`. -/
def jsOrElse (x : Option JsNum) (d : JsNum) : JsNum :=
  match x with
  | none => d
  | some v => if jsTruthy v then v else d

/-- JS `x || null` on a possibly-absent string (empty string is falsy). -/
def strOrNull (x : Option String) : Option String :=
  match x with
  | none => none
  | some s => if s = "" then none else some s

/-- JS truthiness of a possibly-absent string. -/
def strTruthy (x : Option String) : Bool :=
  match x with
  | none => false
  | some s => if s = "" then false else true

/-- JS division where either operand may be `undefined`; an undefined
operand makes the result NaN, as in JavaScript. -/
def jsDivU : Option JsNum → Option JsNum → JsNum
  | some a, some b => jsDiv a b
  | _, _ => .nan

/-- Optional-chaining access `r?.result`: the outer `Option` is a failed
call (the `.catch(() => null)` path), the inner one a response body with
no `result` member. -/
def resOf {α : Type} : Option (Option α) → Option α
  | none => none
  | some r => r

/-- Minimal JSON value, used for payloads the code forwards opaquely. -/
inductive Json where
  | null : Json
  | str : String → Json
  | num : ℚ → Json
deriving DecidableEq

/-- Body of a successful `get-version` response (`result` member). -/
structure VersionResult where
  version : Option String
deriving DecidableEq

/-- Body of a successful `get-stats` response (`result` member). -/
structure StatsResult where
  cpu_percent : Option JsNum
  ram_used : Option JsNum
  ram_total : Option JsNum
  file_size : Option JsNum
  uptime : Option JsNum
  active_streams : Option JsNum
  packets_received : Option JsNum
  packets_sent : Option JsNum
deriving DecidableEq

/-- Body of a successful node-local `get-pods` response (`result` member);
the collector only reads its `total_count`. -/
structure PodsResult where
  total_count : Option JsNum
deriving DecidableEq

/-- Return value of `fetchNodeStats` in `dataCollector.js`. -/
structure ProbeStats where
  status : String
  version : Option String
  cpu : Option JsNum
  ram : Option JsNum
  storage : Option JsNum
  uptime : Option JsNum
  activeStreams : Option JsNum
  packetsReceived : Option JsNum
  packetsSent : Option JsNum
  peersCount : Option JsNum
deriving DecidableEq

/-- Embedding of `fetchNodeStats` (dataCollector.js:54-97).  The three
arguments are the settled results of the concurrent `get-version`,
`get-stats` and `get-pods` calls against the node. -/
def fetchNodeStats (versionRes : Option (Option VersionResult))
    (statsRes : Option (Option StatsResult))
    (podsRes : Option (Option PodsResult)) : ProbeStats :=
  let vR := resOf versionRes
  let sR := resOf statsRes
  let pR := resOf podsRes
  let isOnline := vR.isSome || sR.isSome
  { status := if isOnline then "online" else "offline"
    version := strOrNull (vR.bind (·.version))
    cpu := jsOrNull (sR.bind (·.cpu_percent))
    ram := sR.map (fun r => jsMul (jsDivU r.ram_used r.ram_total) (.num 100))
    storage := jsOrNull (sR.bind (·.file_size))
    uptime := jsOrNull (sR.bind (·.uptime))
    activeStreams := jsOrNull (sR.bind (·.active_streams))
    packetsReceived := jsOrNull (sR.bind (·.packets_received))
    packetsSent := jsOrNull (sR.bind (·.packets_sent))
    peersCount := jsOrNull (pR.bind (·.total_count)) }

/-- Pod record as returned by a registry (`NetworkPod` in the client). -/
structure Pod where
  address : String
  pubkey : Option String
  last_seen_timestamp : Int
  version : String
deriving DecidableEq

/-- Result shape of `callApi` / `callRpcEndpoint` in the client: either a
`result` member, an `error` member, or neither. -/
structure ApiCallResult where
  result : Option Json
  error : Option String
deriving DecidableEq

/-- Node entry produced by the client's `fetchNodeDataAndUpdate`. -/
structure NodeData where
  address : String
  pubkey : Option String
  status : String
  version : Option Json
  stats : Option Json
  error : Option String
deriving DecidableEq

/-- Embedding of the classification in `fetchNodeDataAndUpdate` of the
client nodes context: the node is offline exactly when both the
`get-version` and the `get-stats` proxy calls returned an error. -/
def fetchNodeDataAndUpdate (pod : Pod) (versionRes statsRes : ApiCallResult) :
    NodeData :=
  if strTruthy versionRes.error && strTruthy statsRes.error then
    { address := pod.address
      pubkey := pod.pubkey
      status := "offline"
      version := none
      stats := none
      error := if strTruthy versionRes.error then versionRes.error else statsRes.error }
  else
    { address := pod.address
      pubkey := pod.pubkey
      status := "online"
      version := versionRes.result
      stats := statsRes.result
      error := none }

/-- Per-node entry pushed into `nodeStats` by `collectNetworkData`
(the probe result spread together with address, pubkey and network). -/
structure NodeEntry where
  address : String
  pubkey : Option String
  network : String
  status : String
  version : Option String
  cpu : Option JsNum
  ram : Option JsNum
  storage : Option JsNum
  uptime : Option JsNum
  activeStreams : Option JsNum
  packetsReceived : Option JsNum
  packetsSent : Option JsNum
  peersCount : Option JsNum
deriving DecidableEq

/-- Builds the `nodeStats` entry for one sampled pod from its probe. -/
def probeEntry (probe : Pod → ProbeStats) (network : String) (pod : Pod) :
    NodeEntry :=
  let ps := probe pod
  { address := pod.address
    pubkey := pod.pubkey
    network := network
    status := ps.status
    version := ps.version
    cpu := ps.cpu
    ram := ps.ram
    storage := ps.storage
    uptime := ps.uptime
    activeStreams := ps.activeStreams
    packetsReceived := ps.packetsReceived
    packetsSent := ps.packetsSent
    peersCount := ps.peersCount }

/-- Aggregated per-network statistics (`aggregatedData` in the collector).
The version distribution is modelled as a total count function, missing
keys reading as `0` exactly like a missing JS object member under
`(acc[v] || 0)`. -/
structure AggregatedData where
  totalPods : JsNum
  onlineNodes : Nat
  offlineNodes : Nat
  totalStorage : JsNum
  avgCpu : JsNum
  avgRam : JsNum
  totalStreams : JsNum
  totalBytesTransferred : JsNum
  versionDistribution : String → Nat

/-- One step of the `versionDistribution` reduce: bump the count of the
node's version when the version is truthy (present and nonempty). -/
def versionBump (acc : String → Nat) (n : NodeEntry) : String → Nat :=
  match n.version with
  | some v => if v = "" then acc else fun w => if w = v then acc w + 1 else acc w
  | none => acc

/-- Embedding of the aggregation block of `collectNetworkData`
(dataCollector.js:136-159). -/
def computeAggregate (totalPods : JsNum) (nodeStats : List NodeEntry) :
    AggregatedData :=
  let onlineNodes := nodeStats.filter (fun n => n.status == "online")
  let offlineNodes := nodeStats.filter (fun n => n.status == "offline")
  { totalPods := totalPods
    onlineNodes := onlineNodes.length
    offlineNodes := offlineNodes.length
    totalStorage := onlineNodes.foldl (fun acc n => jsAdd acc (jsOrZero n.storage)) (.num 0)
    avgCpu :=
      if 0 < onlineNodes.length then
        jsDiv (onlineNodes.foldl (fun acc n => jsAdd acc (jsOrZero n.cpu)) (.num 0))
          (.num (onlineNodes.length : ℚ))
      else .num 0
    avgRam :=
      if 0 < onlineNodes.length then
        jsDiv (onlineNodes.foldl (fun acc n => jsAdd acc (jsOrZero n.ram)) (.num 0))
          (.num (onlineNodes.length : ℚ))
      else .num 0
    totalStreams := onlineNodes.foldl (fun acc n => jsAdd acc (jsOrZero n.activeStreams)) (.num 0)
    totalBytesTransferred :=
      onlineNodes.foldl
        (fun acc n => jsAdd (jsAdd acc (jsOrZero n.packetsReceived)) (jsOrZero n.packetsSent))
        (.num 0)
    versionDistribution := nodeStats.foldl versionBump (fun _ => 0) }

/-- Embedding of the sampling step (dataCollector.js:114-116):
`sampleSize = Math.min(20, pods.length)` and `pods.slice(0, sampleSize)`. -/
def samplePods (pods : List Pod) : List Pod :=
  pods.take (min 20 pods.length)

/-- Batches of five, mirroring `sampledPods.slice(i, i + 5)` inside the
`for (let i = 0; ...; i += 5)` loop of `collectNetworkData`. -/
def batchesOfFive {α : Type} : List α → List (List α)
  | [] => []
  | [a] => [[a]]
  | [a, b] => [[a, b]]
  | [a, b, c] => [[a, b, c]]
  | [a, b, c, d] => [[a, b, c, d]]
  | a :: b :: c :: d :: e :: rest => [a, b, c, d, e] :: batchesOfFive rest

/-- The probe loop of `collectNetworkData` (dataCollector.js:118-134):
each batch is fully awaited and its settled results appended to the
accumulated `nodeStats` before the next batch is dispatched. -/
def runBatches (mk : Pod → NodeEntry) (sampled : List Pod) : List NodeEntry :=
  (batchesOfFive sampled).foldl (fun acc batch => acc ++ batch.map mk) []

/-- Registry `get-pods` response body (`result` member): a possibly
missing pods array and a possibly missing `total_count`. -/
structure RegistryPods where
  pods : Option (List Pod)
  total_count : Option JsNum
deriving DecidableEq

/-- Entry of the in-memory `latestData` hot cache. -/
structure CacheEntry where
  timestamp : Int
  podsData : RegistryPods
  stats : AggregatedData
  nodeStats : List NodeEntry

/-- RPC endpoint map of the collector (dataCollector.js:6-11). -/
def RPC_ENDPOINTS : List (String × String) :=
  [("devnet1", "https://rpc1.pchednode.com/rpc"),
   ("devnet2", "https://rpc2.pchednode.com/rpc"),
   ("mainnet1", "https://rpc3.pchednode.com/rpc"),
   ("mainnet2", "https://rpc4.pchednode.com/rpc")]

/-- Network names, in collection order (`Object.keys(RPC_ENDPOINTS)`). -/
def NETWORKS : List String := RPC_ENDPOINTS.map (·.1)

/-- Embedding of `fetchPods` (dataCollector.js:24-49): `null` for an
unknown network, otherwise `data.result || null` where the response is
`none` when the fetch threw (timeout included) and `some none` when the
parsed body has no `result`. -/
def fetchPods (network : String) (resp : Option (Option RegistryPods)) :
    Option RegistryPods :=
  match List.lookup network RPC_ENDPOINTS with
  | none => none
  | some _ => resOf resp

/-- First component of `collectNetworkData`: the returned aggregate, which
does not depend on the cache or the clock. -/
def collectResult (probe : Pod → ProbeStats) (network : String)
    (podsData : Option RegistryPods) : Option AggregatedData :=
  match podsData with
  | none => none
  | some pd =>
    match pd.pods with
    | none => none
    | some pods =>
      let totalPods := jsOrElse pd.total_count (.num (pods.length : ℚ))
      let sampledPods := samplePods pods
      let nodeStats := runBatches (probeEntry probe network) sampledPods
      some (computeAggregate totalPods nodeStats)

/-- Embedding of `collectNetworkData` (dataCollector.js:102-176) as a
state transition on the hot cache: on a failed registry fetch or a result
without a pods array it returns `null` and leaves the cache untouched;
otherwise it aggregates the sampled probes and replaces this network's
cache entry. -/
def collectNetworkData (probe : Pod → ProbeStats) (network : String)
    (podsData : Option RegistryPods) (now : Int)
    (cache : String → Option CacheEntry) :
    Option AggregatedData × (String → Option CacheEntry) :=
  match podsData with
  | none => (none, cache)
  | some pd =>
    match pd.pods with
    | none => (none, cache)
    | some pods =>
      let totalPods := jsOrElse pd.total_count (.num (pods.length : ℚ))
      let sampledPods := samplePods pods
      let nodeStats := runBatches (probeEntry probe network) sampledPods
      let agg := computeAggregate totalPods nodeStats
      (some agg,
        fun n =>
          if n = network then
            some { timestamp := now, podsData := pd, stats := agg, nodeStats := nodeStats }
          else cache n)

/-- The per-network loop body of `collectAllNetworks`, folded over an
arbitrary network list (the registry responses are an environment keyed
by network name). -/
def collectNetworksList (probe : Pod → ProbeStats)
    (env : String → Option RegistryPods) (now : Int) (networks : List String)
    (acc : List (String × Option AggregatedData))
    (cache : String → Option CacheEntry) :
    List (String × Option AggregatedData) × (String → Option CacheEntry) :=
  match networks with
  | [] => (acc, cache)
  | network :: rest =>
    let r := collectNetworkData probe network (env network) now cache
    collectNetworksList probe env now rest (acc ++ [(network, r.1)]) r.2

/-- Embedding of `collectAllNetworks` (dataCollector.js:181-199): the four
networks are collected sequentially, each against the cache state left by
its predecessors. -/
def collectAllNetworks (probe : Pod → ProbeStats)
    (env : String → Option RegistryPods) (now : Int)
    (cache : String → Option CacheEntry) :
    List (String × Option AggregatedData) × (String → Option CacheEntry) :=
  collectNetworksList probe env now NETWORKS [] cache

/-- The guard of dataCollector.js:106: true when the registry fetch
returned `null` or the result carries no pods array. -/
def registryFailed (podsData : Option RegistryPods) : Bool :=
  match podsData with
  | none => true
  | some pd => pd.pods.isNone

/-- Possible transport-level outcomes of one forwarded RPC call. -/
inductive TransportOutcome where
  | timeout : TransportOutcome
  | connError : String → TransportOutcome
  | badJson : String → TransportOutcome
  | cloudflare : TransportOutcome
  | ok : Json → TransportOutcome
deriving DecidableEq

/-- Result record `{ data?, error? }` of the proxy's request helpers. -/
structure HttpResult where
  data : Option Json
  error : Option String
deriving DecidableEq

/-- Embedding of `makeFetchRequest` in `app/api/prpc/route.ts`: the
HTTPS path with browser-like headers, a 10s abort timeout, Cloudflare
challenge detection, and every failure resolved into an `error` field. -/
def makeFetchRequestModel : TransportOutcome → HttpResult
  | .timeout => { data := none, error := some "Request timeout" }
  | .connError m => { data := none, error := some ("Fetch error: " ++ m) }
  | .badJson _ => { data := none, error := some "Invalid JSON response" }
  | .cloudflare =>
      { data := none
        error := some "Cloudflare challenge detected - endpoint may be blocking server requests" }
  | .ok d => { data := some d, error := none }

/-- Protocol test `urlObj.protocol === "https:"` of `makeHttpRequest`:
the URL scheme, read off as the first six characters. -/
def isHttpsUrl (u : String) : Bool := u.data.take 6 == "https:".data

/-- Embedding of `makeHttpRequest` in `app/api/prpc/route.ts`: HTTPS
endpoints are delegated to the fetch path; plain endpoints use the
5-second-timeout socket path.  A body that is not JSON (a challenge page
included) resolves to the `Invalid JSON response` error on this path. -/
def makeHttpRequestModel (url : String) (outcome : TransportOutcome) : HttpResult :=
  if isHttpsUrl url then makeFetchRequestModel outcome
  else
    match outcome with
    | .timeout => { data := none, error := some "Request timeout" }
    | .connError m => { data := none, error := some ("Request error: " ++ m) }
    | .badJson _ => { data := none, error := some "Invalid JSON response" }
    | .cloudflare => { data := none, error := some "Invalid JSON response" }
    | .ok d => { data := some d, error := none }

/-- Parsed request body of the proxy endpoint: either unparsable JSON or
an object with possibly-missing `endpoint` and `method` members. -/
inductive RequestBody where
  | malformed : RequestBody
  | obj : Option String → Option String → RequestBody
deriving DecidableEq

/-- Response of the proxy endpoint: HTTP status plus either an `error`
member or the forwarded payload. -/
structure ApiResponse where
  status : Nat
  error : Option String
  payload : Option Json
deriving DecidableEq

/-- Embedding of the `POST` handler of `app/api/prpc/route.ts`
(lines 213-259): 400 for an unparsable body or missing/falsy `endpoint`
or `method`; otherwise the forwarded call's failure is returned as a
200 response whose body carries the `error` field. -/
def postRpcProxy (req : RequestBody) (outcome : TransportOutcome) : ApiResponse :=
  match req with
  | .malformed => { status := 400, error := some "Invalid JSON body", payload := none }
  | .obj endpoint method =>
    if !strTruthy endpoint || !strTruthy method then
      { status := 400, error := some "Missing endpoint or method", payload := none }
    else
      let result := makeHttpRequestModel (endpoint.getD "") outcome
      if strTruthy result.error then { status := 200, error := result.error, payload := none }
      else { status := 200, error := none, payload := result.data }

/-- Descending insertion of a pod by `last_seen_timestamp`. -/
def insertPodDesc (p : Pod) : List Pod → List Pod
  | [] => [p]
  | q :: qs =>
      if q.last_seen_timestamp < p.last_seen_timestamp then p :: q :: qs
      else q :: insertPodDesc p qs

/-- The client's `pods.sort((a, b) => b.last_seen_timestamp -
a.last_seen_timestamp)`: freshest pods first. -/
def sortPodsDesc (l : List Pod) : List Pod := l.foldr insertPodDesc []

/-- Result of `callRpcEndpoint` when fetching a registry, with the
`result` member typed as the pods response. -/
structure RegistryCallResult where
  result : Option RegistryPods
  error : Option String
deriving DecidableEq

/-- Outcome of the client's `fetchRegistryPods` classification. -/
inductive RegistryFetchOutcome where
  | transportError : String → RegistryFetchOutcome
  | noPodsFound : RegistryFetchOutcome
  | ok : List Pod → RegistryFetchOutcome
  | badShape : RegistryFetchOutcome
deriving DecidableEq

/-- Embedding of the decision structure of `fetchRegistryPods` in the
client nodes context: a transport error is surfaced as the error message
itself; a transport success whose pods array is missing or empty is the
distinct `No pods found in registry` condition; otherwise the pods are
sorted freshest-first.  (`badShape` is the path where the response has
neither `error` nor `result`, on which the JS code would throw.) -/
def classifyRegistryFetch (res : RegistryCallResult) : RegistryFetchOutcome :=
  if strTruthy res.error then .transportError (res.error.getD "")
  else
    match res.result with
    | none => .badShape
    | some data =>
      match data.pods with
      | none => .noPodsFound
      | some pods =>
          if pods.length = 0 then .noPodsFound else .ok (sortPodsDesc pods)

/-- Stored row of the `node_history` collection (`saveNodeHistory`). -/
structure NodeHistoryRecord where
  address : String
  pubkey : Option String
  network : String
  timestamp : Int
  status : String
  version : Option String
  cpu : Option JsNum
  ram : Option JsNum
  storage : Option JsNum
  uptime : Option JsNum
  activeStreams : Option JsNum
  packetsReceived : Option JsNum
  packetsSent : Option JsNum
  peersCount : Option JsNum
deriving DecidableEq

/-- Projection applied by `getNodeHistory`'s `.project(...)` stage. -/
structure NodeHistoryView where
  timestamp : Int
  status : String
  cpu : Option JsNum
  ram : Option JsNum
  storage : Option JsNum
  uptime : Option JsNum
  activeStreams : Option JsNum
  peersCount : Option JsNum
deriving DecidableEq

/-- Field selection of the `getNodeHistory` query. -/
def projectNodeHistory (r : NodeHistoryRecord) : NodeHistoryView :=
  { timestamp := r.timestamp
    status := r.status
    cpu := r.cpu
    ram := r.ram
    storage := r.storage
    uptime := r.uptime
    activeStreams := r.activeStreams
    peersCount := r.peersCount }

/-- The `periodMs` table of `getNodeHistory` (mongodb layer): note the
absence of a `30d` entry, unlike `getNetworkHistory`. -/
def nodePeriodMs (period : String) : Option Int :=
  if period = "1h" then some 3600000
  else if period = "6h" then some 21600000
  else if period = "24h" then some 86400000
  else if period = "7d" then some 604800000
  else none

/-- Ordering used by the `.sort({ timestamp: 1 })` stage. -/
def recTsLe (a b : NodeHistoryRecord) : Prop := a.timestamp ≤ b.timestamp

instance : DecidableRel recTsLe := fun a b =>
  inferInstanceAs (Decidable (a.timestamp ≤ b.timestamp))

instance : IsTotal NodeHistoryRecord recTsLe :=
  ⟨fun a b => Int.le_total a.timestamp b.timestamp⟩

instance : IsTrans NodeHistoryRecord recTsLe :=
  ⟨fun _ _ _ h1 h2 => le_trans h1 h2⟩

/-- Embedding of `getNodeHistory` (mongodb layer): records of the given
address whose timestamp is at least `now` minus the period window
(defaulting to 24h for any unrecognized period), in ascending timestamp
order, projected to the selected fields. -/
def getNodeHistory (db : List NodeHistoryRecord) (address : String)
    (period : String) (now : Int) : List NodeHistoryView :=
  let startTime := now - ((nodePeriodMs period).getD 86400000)
  ((db.filter (fun r => r.address == address && decide (startTime ≤ r.timestamp))).insertionSort
      recTsLe).map projectNodeHistory

/-- One RPC-issuing call site with the timeout literal it passes. -/
structure RpcCallSite where
  site : String
  secureTarget : Bool
  timeoutMs : Nat
deriving DecidableEq

/-- The RPC call sites of the system with their timeout literals:
`fetchPods` (dataCollector.js:40) uses 30000 against the HTTPS registry
endpoints; the three probes of `fetchNodeStats` (dataCollector.js:64,70,76)
use 5000 against plain node-local endpoints; the proxy route uses 10000
on the fetch path (route.ts) and 5000 on the plain socket path. -/
def rpcCallSites : List RpcCallSite :=
  [{ site := "dataCollector.fetchPods", secureTarget := true, timeoutMs := 30000 },
   { site := "dataCollector.fetchNodeStats.get-version", secureTarget := false, timeoutMs := 5000 },
   { site := "dataCollector.fetchNodeStats.get-stats", secureTarget := false, timeoutMs := 5000 },
   { site := "dataCollector.fetchNodeStats.get-pods", secureTarget := false, timeoutMs := 5000 },
   { site := "prpc.makeFetchRequest", secureTarget := true, timeoutMs := 10000 },
   { site := "prpc.makeHttpRequest.plain", secureTarget := false, timeoutMs := 5000 }]

/-- Sum of a list of JS numbers, as the collector's `reduce` with
initial accumulator `0`. -/
def jsSum (xs : List JsNum) : JsNum := xs.foldl jsAdd (.num 0)

/-- A probe whose three calls all failed, used as a concrete environment. -/
def probeOffline : Pod → ProbeStats := fun _ => fetchNodeStats none none none

/-- C1: a probed node's status is `offline` iff both the `get-version`
and the `get-stats` calls fail to yield a result; the `get-pods` result
never influences the status (so a failing peers call alone leaves the
node `online`); and the client-side `fetchNodeDataAndUpdate` likewise
marks a node offline exactly when both of its two calls errored. -/
theorem claim1_offline_iff_both_version_and_stats_fail
    (v : Option (Option VersionResult)) (s : Option (Option StatsResult))
    (p q : Option (Option PodsResult)) (pod : Pod) (vr sr : ApiCallResult) :
    ((fetchNodeStats v s p).status = "offline" ↔ resOf v = none ∧ resOf s = none)
    ∧ ((fetchNodeStats v s p).status = "online" ↔ ¬(resOf v = none ∧ resOf s = none))
    ∧ (fetchNodeStats v s p).status = (fetchNodeStats v s q).status
    ∧ ((fetchNodeDataAndUpdate pod vr sr).status = "offline"
        ↔ strTruthy vr.error = true ∧ strTruthy sr.error = true) := by
  refine ⟨?_, ?_, ?_, ?_⟩
  · cases hv : resOf v <;> cases hs : resOf s <;>
      simp [fetchNodeStats, hv, hs]
  · cases hv : resOf v <;> cases hs : resOf s <;>
      simp [fetchNodeStats, hv, hs]
  · cases hv : resOf v <;> cases hs : resOf s <;>
      simp [fetchNodeStats, hv, hs]
  · cases hvr : strTruthy vr.error <;> cases hsr : strTruthy sr.error <;>
      simp [fetchNodeDataAndUpdate, hvr, hsr]

/-- Concrete `get-stats` result with a zero `ram_total`. -/
def statsZeroRamTotal : StatsResult :=
  { cpu_percent := some (.num 10)
    ram_used := some (.num 1)
    ram_total := some (.num 0)
    file_size := some (.num 5)
    uptime := some (.num 7)
    active_streams := some (.num 2)
    packets_received := some (.num 3)
    packets_sent := some (.num 4) }

/-- C3 counterexample: a node whose `get-stats` call succeeds with
`ram_total = 0` and `ram_used = 1` gets `ram = Infinity`, not an omitted
(null) metric — the code has no guard against a zero or undefined
`ram_total`. -/
theorem claim3_counterexample :
    (fetchNodeStats none (some (some statsZeroRamTotal)) none).ram
      = some JsNum.posInf := by
  simp [fetchNodeStats, statsZeroRamTotal, resOf, jsDivU, jsDiv, jsMul]

/-- C3 amended: the RAM metric is `null` exactly when the `get-stats`
call yields no result; when it does yield one, RAM is computed as
`ram_used / ram_total * 100` under JavaScript arithmetic, so a zero
`ram_total` with positive `ram_used` yields `Infinity` and an undefined
`ram_total` yields `NaN` — there is no division-by-zero guard. -/
theorem claim3_ram_division_unguarded
    (v : Option (Option VersionResult)) (s : Option (Option StatsResult))
    (p : Option (Option PodsResult)) :
    (resOf s = none → (fetchNodeStats v s p).ram = none)
    ∧ (∀ r, resOf s = some r →
        (fetchNodeStats v s p).ram
          = some (jsMul (jsDivU r.ram_used r.ram_total) (.num 100)))
    ∧ (∀ r q, resOf s = some r → r.ram_total = some (.num 0) →
        r.ram_used = some (.num q) → 0 < q →
        (fetchNodeStats v s p).ram = some JsNum.posInf)
    ∧ (∀ r, resOf s = some r → r.ram_total = none →
        (fetchNodeStats v s p).ram = some JsNum.nan) := by
  refine ⟨?_, ?_, ?_, ?_⟩
  · intro hs
    simp [fetchNodeStats, hs]
  · intro r hs
    simp [fetchNodeStats, hs]
  · intro r q hs ht hu hq
    simp [fetchNodeStats, hs, ht, hu, jsDivU, jsDiv, hq.ne', hq, jsMul]
  · intro r hs ht
    simp [fetchNodeStats, hs, ht, jsDivU, jsMul]

/-- C3 witness: the amended theorem applied at a failed stats call and at
the zero-`ram_total` stats result. -/
theorem claim3_ram_division_unguarded_witness :
    (fetchNodeStats none none none).ram = none
    ∧ (fetchNodeStats none (some (some statsZeroRamTotal)) none).ram
        = some JsNum.posInf := by
  refine ⟨(claim3_ram_division_unguarded none none none).1 rfl, ?_⟩
  exact (claim3_ram_division_unguarded none (some (some statsZeroRamTotal)) none).2.2.1
    statsZeroRamTotal 1 rfl rfl rfl (by norm_num)

/-- Appending to a nonempty string literal stays nonempty. -/
theorem append_ne_empty_of_ne (s t : String) (hs : s ≠ "") : s ++ t ≠ "" := by
  intro hc
  apply hs
  have h := congrArg String.length hc
  rw [String.length_append] at h
  have h2 : ("" : String).length = 0 := rfl
  have h3 : s.length = 0 := by omega
  cases s with
  | mk l =>
    cases l with
    | nil => rfl
    | cons c cs => simp [String.length] at h3


/-- A truthy optional string is present. -/
theorem isSome_of_strTruthy {x : Option String} (h : strTruthy x = true) :
    x.isSome = true := by
  cases x with
  | none => simp [strTruthy] at h
  | some s => rfl

/-- Timeout result of the proxy's request helper, on both paths. -/
theorem makeHttpRequestModel_timeout (u : String) :
    makeHttpRequestModel u .timeout = { data := none, error := some "Request timeout" } := by
  by_cases h : isHttpsUrl u <;> simp [makeHttpRequestModel, makeFetchRequestModel, h]

/-- Malformed-response result of the proxy's request helper. -/
theorem makeHttpRequestModel_badJson (u raw : String) :
    makeHttpRequestModel u (.badJson raw)
      = { data := none, error := some "Invalid JSON response" } := by
  by_cases h : isHttpsUrl u <;> simp [makeHttpRequestModel, makeFetchRequestModel, h]

/-- Connection-error result of the proxy's request helper carries a
nonempty error message. -/
theorem makeHttpRequestModel_connError_truthy (u msg : String) :
    strTruthy (makeHttpRequestModel u (.connError msg)).error = true := by
  by_cases h : isHttpsUrl u <;>
    simp [makeHttpRequestModel, makeFetchRequestModel, h, strTruthy,
      append_ne_empty_of_ne "Fetch error: " msg (by decide),
      append_ne_empty_of_ne "Request error: " msg (by decide)]

/-- Challenge-detection result of the proxy's request helper carries a
nonempty error message. -/
theorem makeHttpRequestModel_cloudflare_truthy (u : String) :
    strTruthy (makeHttpRequestModel u .cloudflare).error = true := by
  by_cases h : isHttpsUrl u <;>
    simp [makeHttpRequestModel, makeFetchRequestModel, h, strTruthy]

/-- Shape of the handler's answer once both required members are truthy:
a 200 response carrying either the error or the payload. -/
theorem postRpcProxy_forwarded (e m : Option String) (o : TransportOutcome)
    (he : strTruthy e = true) (hm : strTruthy m = true) :
    postRpcProxy (.obj e m) o
      = if strTruthy (makeHttpRequestModel (e.getD "") o).error then
          { status := 200, error := (makeHttpRequestModel (e.getD "") o).error,
            payload := none }
        else
          { status := 200, error := none,
            payload := (makeHttpRequestModel (e.getD "") o).data } := by
  simp [postRpcProxy, he, hm]

/-- C5: the RPC proxy endpoint answers 400 for an unparsable body or a
missing `endpoint`/`method` member, while a transport-level failure of
the forwarded call (timeout, connection error, malformed response,
challenge page) is answered with status 200 and an `error` member in the
body rather than an error status code. -/
theorem claim5_proxy_error_status_codes (e m : Option String)
    (o : TransportOutcome) (msg raw : String) :
    (postRpcProxy .malformed o).status = 400
    ∧ (postRpcProxy (.obj none m) o).status = 400
    ∧ (postRpcProxy (.obj e none) o).status = 400
    ∧ (strTruthy e = true → strTruthy m = true →
        ((postRpcProxy (.obj e m) .timeout).status = 200
          ∧ (postRpcProxy (.obj e m) .timeout).error.isSome = true)
        ∧ ((postRpcProxy (.obj e m) (.connError msg)).status = 200
          ∧ (postRpcProxy (.obj e m) (.connError msg)).error.isSome = true)
        ∧ ((postRpcProxy (.obj e m) (.badJson raw)).status = 200
          ∧ (postRpcProxy (.obj e m) (.badJson raw)).error.isSome = true)
        ∧ ((postRpcProxy (.obj e m) .cloudflare).status = 200
          ∧ (postRpcProxy (.obj e m) .cloudflare).error.isSome = true)) := by
  refine ⟨rfl, by simp [postRpcProxy, strTruthy], by
    cases e with
    | none => rfl
    | some s => simp [postRpcProxy, strTruthy], ?_⟩
  intro he hm
  refine ⟨?_, ?_, ?_, ?_⟩
  · rw [postRpcProxy_forwarded e m .timeout he hm, makeHttpRequestModel_timeout]
    simp [strTruthy]
  · have h := makeHttpRequestModel_connError_truthy (e.getD "") msg
    rw [postRpcProxy_forwarded e m (.connError msg) he hm]
    simp [h, isSome_of_strTruthy h]
  · rw [postRpcProxy_forwarded e m (.badJson raw) he hm, makeHttpRequestModel_badJson]
    simp [strTruthy]
  · have h := makeHttpRequestModel_cloudflare_truthy (e.getD "")
    rw [postRpcProxy_forwarded e m .cloudflare he hm]
    simp [h, isSome_of_strTruthy h]

/-- C5 witness: the theorem applied at a concrete request with a missing
method, and at a concrete well-formed request whose forwarded call times
out. -/
theorem claim5_proxy_error_status_codes_witness :
    (postRpcProxy (.obj (some "http://1.2.3.4:6000/rpc") none) .timeout).status = 400
    ∧ (postRpcProxy (.obj (some "http://1.2.3.4:6000/rpc") (some "get-stats")) .timeout).status = 200
    ∧ (postRpcProxy (.obj (some "http://1.2.3.4:6000/rpc") (some "get-stats")) .timeout).error.isSome = true := by
  refine ⟨(claim5_proxy_error_status_codes (some "http://1.2.3.4:6000/rpc")
    (some "get-stats") .timeout "" "").2.2.1, ?_, ?_⟩
  · exact (((claim5_proxy_error_status_codes (some "http://1.2.3.4:6000/rpc")
      (some "get-stats") .timeout "" "").2.2.2 (by decide) (by decide)).1).1
  · exact (((claim5_proxy_error_status_codes (some "http://1.2.3.4:6000/rpc")
      (some "get-stats") .timeout "" "").2.2.2 (by decide) (by decide)).1).2

/-- The `versionDistribution` reduce counts, at each version key, the
nodes carrying that truthy version, on top of the initial accumulator. -/
theorem versionBump_foldl (ns : List NodeEntry) (acc : String → Nat) (v : String) :
    (ns.foldl versionBump acc) v
      = acc v + (ns.filter (fun n => n.version == some v && !(v == ""))).length := by
  induction ns generalizing acc with
  | nil => simp
  | cons n rest ih =>
    rw [List.foldl_cons, ih]
    cases hv : n.version with
    | none => simp [versionBump, hv]
    | some w =>
      by_cases hw : w = ""
      · subst hw
        by_cases hvw : v = ""
        · subst hvw
          simp [versionBump, hv]
        · simp [versionBump, hv, hvw, List.filter_cons, Ne.symm hvw]
      · by_cases hvw : v = w
        · subst hvw
          simp [versionBump, hv, hw, Nat.add_comm, Nat.add_assoc, Nat.add_left_comm]
        · simp [versionBump, hv, hw, hvw, Ne.symm hvw]

/-- C2: in every aggregate, online/offline counts range over exactly the
probed entries; storage and stream totals are sums over the online
entries only; the CPU/RAM averages are the arithmetic mean over the
online entries and are the number `0` (never NaN) when no entry is
online; and the version distribution counts all probed entries (online
or offline) with a truthy reported version. -/
theorem claim2_aggregate_arithmetic (t : JsNum) (ns : List NodeEntry) :
    (computeAggregate t ns).onlineNodes
        = (ns.filter (fun n => n.status == "online")).length
    ∧ (computeAggregate t ns).offlineNodes
        = (ns.filter (fun n => n.status == "offline")).length
    ∧ (computeAggregate t ns).totalStorage
        = jsSum ((ns.filter (fun n => n.status == "online")).map (fun n => jsOrZero n.storage))
    ∧ (computeAggregate t ns).totalStreams
        = jsSum ((ns.filter (fun n => n.status == "online")).map (fun n => jsOrZero n.activeStreams))
    ∧ ((ns.filter (fun n => n.status == "online")).length = 0 →
        (computeAggregate t ns).avgCpu = .num 0 ∧ (computeAggregate t ns).avgRam = .num 0)
    ∧ (0 < (ns.filter (fun n => n.status == "online")).length →
        (computeAggregate t ns).avgCpu
          = jsDiv (jsSum ((ns.filter (fun n => n.status == "online")).map (fun n => jsOrZero n.cpu)))
              (.num ((ns.filter (fun n => n.status == "online")).length : ℚ))
        ∧ (computeAggregate t ns).avgRam
          = jsDiv (jsSum ((ns.filter (fun n => n.status == "online")).map (fun n => jsOrZero n.ram)))
              (.num ((ns.filter (fun n => n.status == "online")).length : ℚ)))
    ∧ (∀ v, (computeAggregate t ns).versionDistribution v
        = (ns.filter (fun n => n.version == some v && !(v == ""))).length) := by
  refine ⟨rfl, rfl, ?_, ?_, ?_, ?_, ?_⟩
  · simp [computeAggregate, jsSum, List.foldl_map]
  · simp [computeAggregate, jsSum, List.foldl_map]
  · intro h
    simp [computeAggregate, h]
  · intro h
    constructor <;> simp [computeAggregate, h, Nat.pos_iff_ne_zero.mp h, jsSum, List.foldl_map]
  · intro v
    simpa using versionBump_foldl ns (fun _ => 0) v

/-- Concrete offline probe entry. -/
def offEntry : NodeEntry :=
  { address := "10.0.0.1:6000", pubkey := none, network := "devnet1",
    status := "offline", version := none, cpu := none, ram := none,
    storage := none, uptime := none, activeStreams := none,
    packetsReceived := none, packetsSent := none, peersCount := none }

/-- Concrete online probe entry. -/
def onEntry : NodeEntry :=
  { address := "10.0.0.2:6000", pubkey := some "pk", network := "devnet1",
    status := "online", version := some "1.0.0", cpu := some (.num 30),
    ram := some (.num 40), storage := some (.num 50), uptime := some (.num 60),
    activeStreams := some (.num 2), packetsReceived := some (.num 7),
    packetsSent := some (.num 8), peersCount := some (.num 3) }

/-- C2 witness: the theorem applied at a sample with no online node
(average is the number zero) and at a sample with one online node. -/
theorem claim2_aggregate_arithmetic_witness :
    ((computeAggregate (.num 1) [offEntry]).avgCpu = .num 0
      ∧ (computeAggregate (.num 1) [offEntry]).avgRam = .num 0)
    ∧ (computeAggregate (.num 2) [onEntry, offEntry]).avgCpu
        = jsDiv (jsSum (([onEntry, offEntry].filter (fun n => n.status == "online")).map
            (fun n => jsOrZero n.cpu)))
            (.num (([onEntry, offEntry].filter (fun n => n.status == "online")).length : ℚ)) := by
  refine ⟨(claim2_aggregate_arithmetic (.num 1) [offEntry]).2.2.2.2.1 (by decide),
    ((claim2_aggregate_arithmetic (.num 2) [onEntry, offEntry]).2.2.2.2.2.1 (by decide)).1⟩

/-- The freshest pod of the C4 counterexample registry. -/
def freshPod : Pod :=
  { address := "fresh:6000", pubkey := none, last_seen_timestamp := 100, version := "v" }

/-- A stale pod of the C4 counterexample registry. -/
def stalePod (i : Nat) : Pod :=
  { address := toString i, pubkey := none, last_seen_timestamp := 0, version := "v" }

/-- A 21-pod registry whose freshest pod is listed last. -/
def pods21 : List Pod := (List.range 20).map stalePod ++ [freshPod]

/-- C4 counterexample: on a 21-pod registry whose freshest pod (the only
one with `last_seen_timestamp = 100`) arrives last, the collector's
sample is the first 20 pods and misses the freshest one entirely — the
sample is not the freshest min(20, N) nodes, because `collectNetworkData`
never sorts the pod list by `last_seen_timestamp`. -/
theorem claim4_counterexample :
    (samplePods pods21).length = 20
    ∧ ((samplePods pods21).all (fun p => p.last_seen_timestamp < 100)) = true
    ∧ (pods21.contains freshPod) = true
    ∧ ((samplePods pods21).contains freshPod) = false := by
  refine ⟨?_, ?_, ?_, ?_⟩ <;> decide

/-- C4 amended: the probed sample is the prefix of the first
min(20, N) pods of the registry in the order the registry returned them;
no freshness sort is applied by the collector (the descending
`last_seen_timestamp` sort exists only in the client-side registry path,
embedded here as `sortPodsDesc`). -/
theorem claim4_sample_is_registry_order_first20 (pods : List Pod) :
    samplePods pods = pods.take 20
    ∧ (samplePods pods).length = min 20 pods.length := by
  constructor
  · unfold samplePods
    rcases le_total 20 pods.length with h | h
    · rw [min_eq_left h]
    · rw [min_eq_right h, List.take_length, List.take_of_length_le h]
  · simp [samplePods, List.length_take]

/-- Folding the batch loop over the batches appends exactly the probe
results of every sampled pod, in order. -/
theorem foldl_batchesOfFive_append {α β : Type} (mk : α → β) (l : List α)
    (acc : List β) :
    (batchesOfFive l).foldl (fun a b => a ++ b.map mk) acc = acc ++ l.map mk := by
  induction l using batchesOfFive.induct generalizing acc <;>
    simp [batchesOfFive, *]

/-- The number of batches is the ceiling of the sample size over five. -/
theorem batchesOfFive_length {α : Type} (l : List α) :
    (batchesOfFive l).length = (l.length + 4) / 5 := by
  induction l using batchesOfFive.induct <;> simp [batchesOfFive, *]
  omega

/-- No batch holds more than five pods. -/
theorem batchesOfFive_sizes {α : Type} (l : List α) :
    ((batchesOfFive l).all (fun b => b.length ≤ 5)) = true := by
  induction l using batchesOfFive.induct <;> simp [batchesOfFive, *]

/-- C7: the probe loop processes the sample in ceil(N/5) sequential
batches of at most five probes each; the accumulated `nodeStats` passed
to the aggregation is exactly the settled probe result of every sampled
pod (one entry per pod, in sample order), so the snapshot is computed
from the complete sample, never from a partial one. -/
theorem claim7_batched_probing_complete (probe : Pod → ProbeStats)
    (network : String) (sampled pods : List Pod) (tc : Option JsNum) :
    runBatches (probeEntry probe network) sampled
        = sampled.map (probeEntry probe network)
    ∧ (runBatches (probeEntry probe network) sampled).length = sampled.length
    ∧ (batchesOfFive sampled).length = (sampled.length + 4) / 5
    ∧ ((batchesOfFive sampled).all (fun b => b.length ≤ 5)) = true
    ∧ collectResult probe network (some { pods := some pods, total_count := tc })
        = some (computeAggregate (jsOrElse tc (.num (pods.length : ℚ)))
            ((samplePods pods).map (probeEntry probe network))) := by
  have hmap : runBatches (probeEntry probe network) sampled
      = sampled.map (probeEntry probe network) := by
    unfold runBatches
    simpa using foldl_batchesOfFive_append (probeEntry probe network) sampled []
  have hmap2 : runBatches (probeEntry probe network) (samplePods pods)
      = (samplePods pods).map (probeEntry probe network) := by
    unfold runBatches
    simpa using foldl_batchesOfFive_append (probeEntry probe network) (samplePods pods) []
  refine ⟨hmap, by simp [hmap], batchesOfFive_length sampled, batchesOfFive_sizes sampled, ?_⟩
  simp [collectResult, hmap2]

/-- The aggregate returned by `collectNetworkData` is its cache-free and
clock-free component. -/
theorem collectNetworkData_fst (probe : Pod → ProbeStats) (network : String)
    (podsData : Option RegistryPods) (now : Int)
    (cache : String → Option CacheEntry) :
    (collectNetworkData probe network podsData now cache).1
      = collectResult probe network podsData := by
  cases podsData with
  | none => rfl
  | some pd =>
    cases h : pd.pods with
    | none => simp [collectNetworkData, collectResult, h]
    | some pods => simp [collectNetworkData, collectResult, h]

/-- `collectNetworkData` leaves every other network's cache entry
untouched. -/
theorem collectNetworkData_snd_ne (probe : Pod → ProbeStats) (network : String)
    (podsData : Option RegistryPods) (now : Int)
    (cache : String → Option CacheEntry) (k : String) (hk : k ≠ network) :
    (collectNetworkData probe network podsData now cache).2 k = cache k := by
  cases podsData with
  | none => rfl
  | some pd =>
    cases h : pd.pods with
    | none => simp [collectNetworkData, h]
    | some pods => simp [collectNetworkData, h, hk]

/-- On a failed registry fetch, `collectNetworkData` returns the cache
unchanged. -/
theorem collectNetworkData_snd_failed (probe : Pod → ProbeStats)
    (network : String) (podsData : Option RegistryPods) (now : Int)
    (cache : String → Option CacheEntry)
    (hfail : registryFailed podsData = true) :
    (collectNetworkData probe network podsData now cache).2 = cache := by
  cases podsData with
  | none => rfl
  | some pd =>
    cases h : pd.pods with
    | none => simp [collectNetworkData, h]
    | some pods => simp [registryFailed, h] at hfail

/-- A failed registry fetch produces no aggregate. -/
theorem collectResult_of_failed (probe : Pod → ProbeStats) (network : String)
    (podsData : Option RegistryPods)
    (hfail : registryFailed podsData = true) :
    collectResult probe network podsData = none := by
  cases podsData with
  | none => rfl
  | some pd =>
    cases h : pd.pods with
    | none => simp [collectResult, h]
    | some pods => simp [registryFailed, h] at hfail

/-- The per-network results of the collection fold: every listed network
is collected, and its aggregate depends only on its own registry
response. -/
theorem collectNetworksList_fst (probe : Pod → ProbeStats)
    (env : String → Option RegistryPods) (now : Int) (l : List String)
    (acc : List (String × Option AggregatedData))
    (cache : String → Option CacheEntry) :
    (collectNetworksList probe env now l acc cache).1
      = acc ++ l.map (fun m => (m, collectResult probe m (env m))) := by
  induction l generalizing acc cache with
  | nil => simp [collectNetworksList]
  | cons n rest ih =>
    rw [collectNetworksList, ih]
    simp [collectNetworkData_fst]

/-- A network whose registry response fails keeps its cache entry across
the whole collection fold. -/
theorem collectNetworksList_snd_failed (probe : Pod → ProbeStats)
    (env : String → Option RegistryPods) (now : Int) (l : List String)
    (acc : List (String × Option AggregatedData))
    (cache : String → Option CacheEntry) (n : String)
    (hfail : registryFailed (env n) = true) :
    (collectNetworksList probe env now l acc cache).2 n = cache n := by
  induction l generalizing acc cache with
  | nil => rfl
  | cons m rest ih =>
    rw [collectNetworksList]
    rw [ih]
    by_cases hmn : n = m
    · subst hmn
      rw [collectNetworkData_snd_failed probe n (env n) now cache hfail]
    · rw [collectNetworkData_snd_ne probe m (env m) now cache n hmn]

/-- Looking up a listed key in a key-indexed map of a list. -/
theorem lookup_map_pair {β : Type} (f : String → β) (l : List String)
    (n : String) (hn : n ∈ l) :
    List.lookup n (l.map (fun m => (m, f m))) = some (f n) := by
  induction l with
  | nil => simp at hn
  | cons m rest ih =>
    by_cases h : n = m
    · subst h
      simp [List.lookup]
    · rcases List.mem_cons.mp hn with h' | h'
      · exact absurd h' h
      · have hb : (n == m) = false := beq_eq_false_iff_ne.mpr h
        simpa [List.lookup, hb] using ih h'

/-- C6: a network whose registry fetch fails (or yields no pods array)
contributes no snapshot for that cycle — its result is `null` — and its
hot-cache entry is left exactly as it was; the failure does not prevent
the other networks from being collected, every listed network's result
being determined by its own registry response alone. -/
theorem claim6_registry_failure_isolated (probe : Pod → ProbeStats)
    (env : String → Option RegistryPods) (now : Int)
    (cache : String → Option CacheEntry) (n : String)
    (hfail : registryFailed (env n) = true) :
    (collectAllNetworks probe env now cache).2 n = cache n
    ∧ (collectAllNetworks probe env now cache).1
        = NETWORKS.map (fun m => (m, collectResult probe m (env m)))
    ∧ (n ∈ NETWORKS →
        List.lookup n (collectAllNetworks probe env now cache).1 = some none) := by
  have hfst : (collectAllNetworks probe env now cache).1
      = NETWORKS.map (fun m => (m, collectResult probe m (env m))) := by
    simpa using collectNetworksList_fst probe env now NETWORKS [] cache
  refine ⟨collectNetworksList_snd_failed probe env now NETWORKS [] cache n hfail,
    hfst, ?_⟩
  intro hmem
  rw [hfst, lookup_map_pair (fun m => collectResult probe m (env m)) NETWORKS n hmem,
    collectResult_of_failed probe n (env n) hfail]

/-- C6 witness: the theorem applied to a cycle in which every registry
fetch fails, at network `devnet1` with an empty starting cache. -/
theorem claim6_registry_failure_isolated_witness :
    (collectAllNetworks probeOffline (fun _ => none) 0 (fun _ => none)).2 "devnet1" = none
    ∧ List.lookup "devnet1"
        (collectAllNetworks probeOffline (fun _ => none) 0 (fun _ => none)).1 = some none := by
  refine ⟨(claim6_registry_failure_isolated probeOffline (fun _ => none) 0
    (fun _ => none) "devnet1" rfl).1, ?_⟩
  exact (claim6_registry_failure_isolated probeOffline (fun _ => none) 0
    (fun _ => none) "devnet1" rfl).2.2 (by decide)

/-- C8 counterexample: the collector's registry fetch (`fetchPods`)
targets the HTTPS RPC endpoints but passes a 30000 ms timeout, so not
every secure call carries the claimed 10-second timeout. -/
theorem claim8_counterexample :
    (rpcCallSites.all
        (fun c => c.timeoutMs = if c.secureTarget then 10000 else 5000)) = false
    ∧ (RPC_ENDPOINTS.all (fun e => isHttpsUrl e.2)) = true
    ∧ ((rpcCallSites.filter (fun c => c.site == "dataCollector.fetchPods")).map
        (fun c => c.timeoutMs)) = [30000] := by
  refine ⟨?_, ?_, ?_⟩ <;> decide

/-- C8 amended: every RPC call site carries a positive timeout — 5
seconds on every plain-HTTP node-local call, 10 seconds on the proxy's
secure fetch path, but 30 seconds (not 10) on the collector's registry
fetch — and a timed-out call resolves to an error result (`Request
timeout` from the proxy helpers, a `null` pods result from `fetchPods`)
rather than being left running. -/
theorem claim8_timeouts_present_but_registry_is_30s (u network : String) :
    (rpcCallSites.all (fun c => 0 < c.timeoutMs)) = true
    ∧ ((rpcCallSites.filter (fun c => !c.secureTarget)).all
        (fun c => c.timeoutMs = 5000)) = true
    ∧ ((rpcCallSites.filter (fun c => c.site == "prpc.makeFetchRequest")).map
        (fun c => c.timeoutMs)) = [10000]
    ∧ ((rpcCallSites.filter (fun c => c.site == "dataCollector.fetchPods")).map
        (fun c => c.timeoutMs)) = [30000]
    ∧ makeHttpRequestModel u .timeout = { data := none, error := some "Request timeout" }
    ∧ makeFetchRequestModel .timeout = { data := none, error := some "Request timeout" }
    ∧ fetchPods network none = none := by
  refine ⟨by decide, by decide, by decide, by decide,
    makeHttpRequestModel_timeout u, rfl, ?_⟩
  unfold fetchPods
  cases List.lookup network RPC_ENDPOINTS with
  | none => rfl
  | some _ => rfl

/-- A registry response carrying an empty pods array. -/
def emptyPodsData : RegistryPods := { pods := some [], total_count := some (.num 0) }

/-- C9 counterexample: in the collector, a registry fetch that completes
at the transport level with an empty pods array is not any kind of
failure — `collectNetworkData` proceeds and produces a (zero-node)
aggregate, indistinguishable from a successful non-empty cycle in kind. -/
theorem claim9_counterexample :
    (collectResult probeOffline "devnet1" (some emptyPodsData)).isSome = true
    ∧ registryFailed (some emptyPodsData) = false := by
  refine ⟨?_, rfl⟩
  simp [collectResult, emptyPodsData]

/-- C9 amended: the client registry path distinguishes the three cases —
a transport error surfaces as its own message, a transport success whose
pods array is missing or empty is the distinct `No pods found` outcome
(a different constructor than a transport error) — while the collector
aborts its cycle on a missing pods array but treats an empty pods array
as a successful, zero-node registry. -/
theorem claim9_registry_empty_distinct_in_client (res : RegistryCallResult)
    (data : RegistryPods) (msg : String) (probe : Pod → ProbeStats)
    (network : String) (tc : Option JsNum) :
    (strTruthy res.error = false → res.result = some data →
      (data.pods = none ∨ data.pods = some ([] : List Pod)) →
      classifyRegistryFetch res = .noPodsFound)
    ∧ (strTruthy res.error = true →
        classifyRegistryFetch res = .transportError (res.error.getD ""))
    ∧ RegistryFetchOutcome.noPodsFound ≠ RegistryFetchOutcome.transportError msg
    ∧ collectResult probe network (some { pods := none, total_count := tc }) = none
    ∧ (collectResult probe network
        (some { pods := some ([] : List Pod), total_count := tc })).isSome = true := by
  refine ⟨?_, ?_, by simp, by simp [collectResult], by simp [collectResult]⟩
  · intro herr hres hpods
    rcases hpods with h | h <;> simp [classifyRegistryFetch, herr, hres, h]
  · intro herr
    simp [classifyRegistryFetch, herr]

/-- C9 witness: the amended theorem applied at a healthy-but-empty
registry response and at a timed-out transport. -/
theorem claim9_registry_empty_distinct_in_client_witness :
    classifyRegistryFetch { result := some { pods := none, total_count := none }, error := none }
      = .noPodsFound
    ∧ classifyRegistryFetch { result := none, error := some "Request timeout" }
      = .transportError "Request timeout" := by
  refine ⟨(claim9_registry_empty_distinct_in_client
      { result := some { pods := none, total_count := none }, error := none }
      { pods := none, total_count := none } "" probeOffline "devnet1" none).1
      rfl rfl (Or.inl rfl), ?_⟩
  exact (claim9_registry_empty_distinct_in_client
    { result := none, error := some "Request timeout" }
    { pods := none, total_count := none } "" probeOffline "devnet1" none).2.1 rfl

/-- C10: `getNodeHistory` with any period other than `1h`, `6h`, `24h`
or `7d` — `30d` included — silently falls back to the 24-hour window: it
answers exactly as the `24h` query does, returning precisely the stored
records of that address whose timestamp lies in the last 24 hours, in
ascending timestamp order. -/
theorem claim10_node_history_fallback (db : List NodeHistoryRecord)
    (address : String) (now : Int) (period : String)
    (h1 : period ≠ "1h") (h6 : period ≠ "6h") (h24 : period ≠ "24h")
    (h7 : period ≠ "7d") :
    getNodeHistory db address period now = getNodeHistory db address "24h" now
    ∧ (getNodeHistory db address period now).Perm
        ((db.filter (fun r => r.address == address
            && decide (now - 86400000 ≤ r.timestamp))).map projectNodeHistory)
    ∧ (getNodeHistory db address period now).Pairwise
        (fun a b => a.timestamp ≤ b.timestamp) := by
  have hper : nodePeriodMs period = none := by
    simp [nodePeriodMs, h1, h6, h24, h7]
  have heq : getNodeHistory db address period now
      = getNodeHistory db address "24h" now := by
    unfold getNodeHistory
    rw [hper]
    rfl
  refine ⟨heq, ?_, ?_⟩
  · unfold getNodeHistory
    rw [hper]
    exact List.Perm.map projectNodeHistory
      (List.perm_insertionSort recTsLe
        (db.filter (fun r => r.address == address
          && decide (now - 86400000 ≤ r.timestamp))))
  · unfold getNodeHistory
    rw [hper]
    have hsorted := List.sorted_insertionSort recTsLe
      (db.filter (fun r => r.address == address
        && decide (now - 86400000 ≤ r.timestamp)))
    exact List.Pairwise.map projectNodeHistory (fun a b hab => hab) hsorted

/-- Concrete in-window history row. -/
def histRecNew : NodeHistoryRecord :=
  { address := "10.0.0.1:6000", pubkey := none, network := "devnet1",
    timestamp := 50000000, status := "online", version := some "1.0.0",
    cpu := some (.num 30), ram := some (.num 40), storage := some (.num 50),
    uptime := some (.num 60), activeStreams := some (.num 2),
    packetsReceived := some (.num 7), packetsSent := some (.num 8),
    peersCount := some (.num 3) }

/-- Concrete out-of-window history row for the same address. -/
def histRecOld : NodeHistoryRecord :=
  { address := "10.0.0.1:6000", pubkey := none, network := "devnet1",
    timestamp := 1000, status := "offline", version := none,
    cpu := none, ram := none, storage := none, uptime := none,
    activeStreams := none, packetsReceived := none, packetsSent := none,
    peersCount := none }

/-- C10 witness: the theorem applied at the unsupported `30d` period on a
concrete two-row store. -/
theorem claim10_node_history_fallback_witness :
    getNodeHistory [histRecNew, histRecOld] "10.0.0.1:6000" "30d" 100000000
      = getNodeHistory [histRecNew, histRecOld] "10.0.0.1:6000" "24h" 100000000
    ∧ (getNodeHistory [histRecNew, histRecOld] "10.0.0.1:6000" "30d" 100000000).Pairwise
        (fun a b => a.timestamp ≤ b.timestamp) := by
  refine ⟨(claim10_node_history_fallback [histRecNew, histRecOld] "10.0.0.1:6000"
    100000000 "30d" (by decide) (by decide) (by decide) (by decide)).1, ?_⟩
  exact (claim10_node_history_fallback [histRecNew, histRecOld] "10.0.0.1:6000"
    100000000 "30d" (by decide) (by decide) (by decide) (by decide)).2.2
